import Mathlib

/-!
Verification of the student grading system backend against its specification.

The definitions below are a shallow embedding of the repository code:
  - app/models/models.py       : the relational data model (User, Classroom,
    ClassroomEnrollment, Lesson, Assignment, Submission)
  - app/core/config.py         : boolean environment parsing
  - app/core/security.py       : password hashing and JWT issuance/decoding
  - app/api/auth.py            : form login and JSON login handlers
  - app/api/classrooms.py      : enrollment handler
  - app/api/assignments.py     : assignment retrieval and the shared
    lesson-ownership authorization routine
  - app/api/submissions.py     : submission listing handler
  - app/api/grading.py         : grading handlers

Modelling conventions: machine integers and database ids are Nat, timestamps
are Int (unix seconds, UTC), Python float score values are exact rationals
(the grading path only stores the value and never computes with it), database
tables are lists of rows, and session.get by primary key is List.find? on the
id. HTTP error responses are an explicit error type carrying the status kind
and the detail string from the source. External primitives (passlib bcrypt,
SHA-256 from hashlib, the jose JWT layer) are modelled explicitly: SHA-256 is
implemented in full, while the salted bcrypt layer of passlib bcrypt_sha256 is
idealized as a deterministic record of the SHA-256 digest of its input, which
preserves exactly the equality semantics that passlib verification checks.
-/

namespace StudentGrading

/-- Roles from app/models/models.py UserRole. -/
inductive UserRole
| STUDENT
| TEACHER
deriving DecidableEq

/-- String value of a role, as used for the role claim in tokens. -/
def UserRole.value : UserRole → String
| UserRole.STUDENT => "STUDENT"
| UserRole.TEACHER => "TEACHER"

/-- User table row, app/models/models.py. -/
structure User where
  id : Nat
  email : String
  full_name : String
  role : UserRole
  hashed_password : String
deriving DecidableEq

/-- Classroom table row, app/models/models.py. -/
structure Classroom where
  id : Nat
  name : String
  description : Option String
  teacher_id : Nat
deriving DecidableEq

/-- ClassroomEnrollment table row: composite key (classroom_id, student_id). -/
structure ClassroomEnrollment where
  classroom_id : Nat
  student_id : Nat
deriving DecidableEq

/-- Lesson table row, app/models/models.py. -/
structure Lesson where
  id : Nat
  classroom_id : Nat
  title : String
  description : Option String
  scheduled_at : Option Int
deriving DecidableEq

/-- Assignment table row, app/models/models.py. -/
structure Assignment where
  id : Nat
  lesson_id : Nat
  title : String
  description : Option String
  due_at : Option Int
  max_score : Rat
  is_published : Bool
deriving DecidableEq

/-- Submission table row, app/models/models.py. -/
structure Submission where
  id : Nat
  assignment_id : Nat
  student_id : Nat
  submitted_at : Int
  content : Option String
  file_path : Option String
  score : Option Rat
  feedback : Option String
  graded_at : Option Int
  graded_by : Option Nat
deriving DecidableEq

/-- The relational store: one list of rows per table of the schema. -/
structure DB where
  users : List User
  classrooms : List Classroom
  enrollments : List ClassroomEnrollment
  lessons : List Lesson
  assignments : List Assignment
  submissions : List Submission
deriving DecidableEq

/-- session.get(User, uid): primary-key lookup. -/
def getUser (db : DB) (uid : Nat) : Option User :=
  db.users.find? (fun u => u.id == uid)

/-- session.get(Classroom, cid): primary-key lookup. -/
def getClassroom (db : DB) (cid : Nat) : Option Classroom :=
  db.classrooms.find? (fun c => c.id == cid)

/-- session.get(Lesson, lid): primary-key lookup. -/
def getLesson (db : DB) (lid : Nat) : Option Lesson :=
  db.lessons.find? (fun l => l.id == lid)

/-- session.get(Assignment, aid): primary-key lookup. -/
def getAssignment (db : DB) (aid : Nat) : Option Assignment :=
  db.assignments.find? (fun a => a.id == aid)

/-- session.get(Submission, sid): primary-key lookup. -/
def getSubmission (db : DB) (sid : Nat) : Option Submission :=
  db.submissions.find? (fun s => s.id == sid)

/-- session.get(ClassroomEnrollment, key dict): composite-key lookup. -/
def getEnrollment (db : DB) (cid sid : Nat) : Option ClassroomEnrollment :=
  db.enrollments.find? (fun e => e.classroom_id == cid && e.student_id == sid)

/-- select(User).where(User.email == e).first(), as used by both logins. -/
def find_user_by_email (db : DB) (email : String) : Option User :=
  db.users.find? (fun u => u.email == email)

/-- HTTPException raised by the handlers, tagged by status code with the
detail string from the source. -/
inductive HError
| notFound (detail : String)
| forbidden (detail : String)
| badRequest (detail : String)
| unauthorized (detail : String)
deriving DecidableEq

/-- True exactly when a handler result is a 404 error. -/
def resultIsNotFound {α : Type} : Except HError α → Bool
| Except.error (HError.notFound _) => true
| _ => false

/-- True exactly when a handler result is a 403 error. -/
def resultIsForbidden {α : Type} : Except HError α → Bool
| Except.error (HError.forbidden _) => true
| _ => false

/-- Python str.strip(): drop whitespace from both ends. -/
def py_strip (s : String) : String :=
  String.mk (((s.data.dropWhile Char.isWhitespace).reverse.dropWhile Char.isWhitespace).reverse)

/-- Python str.lower(): lowercase each character. -/
def py_lower (s : String) : String :=
  String.mk (s.data.map Char.toLower)

/-- app/core/config.py _get_bool: raw is the environment value when the
variable is present. A present value is recognized as true exactly when its
stripped lowercased form is in the literal set; any other present value makes
the membership test return false, bypassing the default. -/
def get_bool (raw : Option String) (default_value : Bool) : Bool :=
  match raw with
  | none => default_value
  | some r => ["1", "true", "yes", "y", "on"].contains (py_lower (py_strip r))

/-- Decoded JWT payload: the claims written by the auth handlers plus the exp
claim added at creation. The token string layer (base64 and HMAC signature) is
not modelled; a payload stands for its signed encoding. -/
structure TokenPayload where
  sub : String
  role : String
  exp : Int
deriving DecidableEq

/-- app/core/security.py create_access_token. The Python expression
expires_minutes or settings.ACCESS_TOKEN_EXPIRE_MINUTES falls back to the
configured default both when the argument is None and when it is 0, because 0
is falsy; a nonzero argument, negative included, is used as given. The exp
claim is now plus the chosen number of minutes. -/
def create_access_token (sub role : String) (expires_minutes : Option Int)
    (now default_expire_minutes : Int) : TokenPayload :=
  let expire_delta : Int :=
    match expires_minutes with
    | none => default_expire_minutes
    | some m => if m = 0 then default_expire_minutes else m
  { sub := sub, role := role, exp := now + 60 * expire_delta }

/-- app/core/security.py decode_access_token via jose jwt.decode: fails with
an expiry error when the exp claim is in the past at decode time. Signature
and algorithm failures are out of scope for the decoded-payload model. -/
def decode_access_token (tok : TokenPayload) (now : Int) : Except String TokenPayload :=
  if tok.exp < now then Except.error "Signature has expired" else Except.ok tok

/-- UTF-8 encoding of one character as a list of byte values. -/
def utf8EncodeChar (c : Char) : List Nat :=
  let n := c.toNat
  if n < 128 then [n]
  else if n < 2048 then
    [192 ||| (n >>> 6), 128 ||| (n &&& 63)]
  else if n < 65536 then
    [224 ||| (n >>> 12), 128 ||| ((n >>> 6) &&& 63), 128 ||| (n &&& 63)]
  else
    [240 ||| (n >>> 18), 128 ||| ((n >>> 12) &&& 63), 128 ||| ((n >>> 6) &&& 63), 128 ||| (n &&& 63)]

/-- Python s.encode of a string in UTF-8, as a list of byte values. -/
def utf8Bytes (s : String) : List Nat :=
  (s.data.map utf8EncodeChar).flatten

/-- Truncate to a 32-bit word. -/
def w32 (n : Nat) : Nat := n % 4294967296

/-- Rotate a 32-bit word right by n bits. -/
def rotr (x n : Nat) : Nat := w32 ((x >>> n) ||| (x <<< (32 - n)))

/-- SHA-256 big sigma 0. -/
def bigSigma0 (x : Nat) : Nat := (rotr x 2) ^^^ (rotr x 13) ^^^ (rotr x 22)

/-- SHA-256 big sigma 1. -/
def bigSigma1 (x : Nat) : Nat := (rotr x 6) ^^^ (rotr x 11) ^^^ (rotr x 25)

/-- SHA-256 small sigma 0. -/
def smallSigma0 (x : Nat) : Nat := (rotr x 7) ^^^ (rotr x 18) ^^^ (x >>> 3)

/-- SHA-256 small sigma 1. -/
def smallSigma1 (x : Nat) : Nat := (rotr x 17) ^^^ (rotr x 19) ^^^ (x >>> 10)

/-- SHA-256 choose function. -/
def shaCh (x y z : Nat) : Nat := (x &&& y) ^^^ ((4294967295 ^^^ x) &&& z)

/-- SHA-256 majority function. -/
def shaMaj (x y z : Nat) : Nat := (x &&& y) ^^^ (x &&& z) ^^^ (y &&& z)

/-- SHA-256 round constants of FIPS 180-4, written in decimal. -/
def K256 : List Nat :=
  [1116352408, 1899447441, 3049323471, 3921009573,
   961987163, 1508970993, 2453635748, 2870763221,
   3624381080, 310598401, 607225278, 1426881987,
   1925078388, 2162078206, 2614888103, 3248222580,
   3835390401, 4022224774, 264347078, 604807628,
   770255983, 1249150122, 1555081692, 1996064986,
   2554220882, 2821834349, 2952996808, 3210313671,
   3336571891, 3584528711, 113926993, 338241895,
   666307205, 773529912, 1294757372, 1396182291,
   1695183700, 1986661051, 2177026350, 2456956037,
   2730485921, 2820302411, 3259730800, 3345764771,
   3516065817, 3600352804, 4094571909, 275423344,
   430227734, 506948616, 659060556, 883997877,
   958139571, 1322822218, 1537002063, 1747873779,
   1955562222, 2024104815, 2227730452, 2361852424,
   2428436474, 2756734187, 3204031479, 3329325298]

/-- SHA-256 initial hash state of FIPS 180-4, written in decimal. -/
def H256 : List Nat :=
  [1779033703, 3144134277, 1013904242, 2773480762,
   1359893119, 2600822924, 528734635, 1541459225]

/-- Big-endian 8-byte encoding of a Nat. -/
def be64 (n : Nat) : List Nat :=
  (List.range 8).map (fun i => (n >>> (8 * (7 - i))) &&& 255)

/-- SHA-256 padding: append 0x80, zero bytes to 56 mod 64, then the bit
length as 8 big-endian bytes. -/
def sha256pad (msg : List Nat) : List Nat :=
  let z := (120 - ((msg.length + 1) % 64)) % 64
  msg ++ [128] ++ List.replicate z 0 ++ be64 (8 * msg.length)

/-- Split a byte list into 64-byte blocks, with structural fuel so that the
definition reduces inside the kernel. Each step consumes at least one byte,
so fuel equal to the length of the list is always enough. -/
def chunks64Go : Nat → List Nat → List (List Nat)
| _, [] => []
| 0, _ :: _ => []
| Nat.succ fuel, b :: bs => ((b :: bs).take 64) :: chunks64Go fuel ((b :: bs).drop 64)

/-- Split a byte list into 64-byte blocks. -/
def chunks64 (l : List Nat) : List (List Nat) :=
  chunks64Go l.length l

/-- Pack bytes into big-endian 32-bit words. -/
def toWords : List Nat → List Nat
| b0 :: b1 :: b2 :: b3 :: rest => ((((b0 <<< 8) ||| b1) <<< 8 ||| b2) <<< 8 ||| b3) :: toWords rest
| _ => []

/-- Message schedule: extend 16 words to 64. -/
def buildW (ws16 : List Nat) : List Nat :=
  (List.range 48).foldl
    (fun w i =>
      w ++ [w32 (smallSigma1 (w.getD (i + 14) 0) + w.getD (i + 9) 0 +
                 smallSigma0 (w.getD (i + 1) 0) + w.getD i 0)])
    ws16

/-- One SHA-256 block compression. -/
def sha256compress (hs : List Nat) (block : List Nat) : List Nat :=
  let w := buildW (toWords block)
  let h0 := hs.getD 0 0
  let h1 := hs.getD 1 0
  let h2 := hs.getD 2 0
  let h3 := hs.getD 3 0
  let h4 := hs.getD 4 0
  let h5 := hs.getD 5 0
  let h6 := hs.getD 6 0
  let h7 := hs.getD 7 0
  let st := (List.range 64).foldl
    (fun st i =>
      match st with
      | (a, b, c, d, e, f, g, h) =>
        let t1 := w32 (h + bigSigma1 e + shaCh e f g + K256.getD i 0 + w.getD i 0)
        let t2 := w32 (bigSigma0 a + shaMaj a b c)
        (w32 (t1 + t2), a, b, c, w32 (d + t1), e, f, g))
    (h0, h1, h2, h3, h4, h5, h6, h7)
  match st with
  | (a, b, c, d, e, f, g, h) =>
    [w32 (h0 + a), w32 (h1 + b), w32 (h2 + c), w32 (h3 + d),
     w32 (h4 + e), w32 (h5 + f), w32 (h6 + g), w32 (h7 + h)]

/-- SHA-256 digest of a byte list, as 32 byte values. -/
def sha256bytes (msg : List Nat) : List Nat :=
  let hs := (chunks64 (sha256pad msg)).foldl sha256compress H256
  (hs.map (fun h => [(h >>> 24) &&& 255, (h >>> 16) &&& 255, (h >>> 8) &&& 255, h &&& 255])).flatten

/-- Lowercase hex character for a value below 16. -/
def hexChar (n : Nat) : Char :=
  if n < 10 then Char.ofNat (48 + n) else Char.ofNat (87 + n)

/-- Lowercase hex string of a byte list. -/
def bytesToHex (bs : List Nat) : String :=
  String.mk ((bs.map (fun b => [hexChar ((b >>> 4) &&& 15), hexChar (b &&& 15)])).flatten)

/-- Python hashlib.sha256(s.encode utf-8).hexdigest(). -/
def sha256hexdigest (s : String) : String :=
  bytesToHex (sha256bytes (utf8Bytes s))

/-- Model of the external passlib CryptContext.hash with scheme bcrypt_sha256.
The scheme hashes the SHA-256 digest of the secret with salted bcrypt; the
salt and the bcrypt layer are idealized away, so the stored hash records the
SHA-256 digest of the secret. Verification compares exactly what passlib
verification compares: the digests of the two secrets. -/
def pwd_context_hash (secret : String) : String :=
  "bcrypt-sha256$" ++ bytesToHex (sha256bytes (utf8Bytes secret))

/-- Model of passlib CryptContext.verify with scheme bcrypt_sha256: the check
succeeds exactly when hashing the candidate secret reproduces the stored
hash. -/
def pwd_context_verify (secret stored : String) : Bool :=
  pwd_context_hash secret == stored

/-- app/core/security.py get_password_hash: if the UTF-8 byte length of the
password exceeds 72, pre-hash it with SHA-256 (hex digest) before the passlib
step. -/
def get_password_hash (password : String) : String :=
  let pw := if 72 < (utf8Bytes password).length then sha256hexdigest password else password
  pwd_context_hash pw

/-- app/core/security.py verify_password: hands the plaintext directly to the
passlib verify, with no pre-hash step. -/
def verify_password (plain_password hashed_password : String) : Bool :=
  pwd_context_verify plain_password hashed_password

/-- Token response schema from app/schemas/schemas.py: access token, the fixed
token type label, user id and role. -/
structure Token where
  access_token : TokenPayload
  token_type : String
  user_id : Nat
  role : UserRole
deriving DecidableEq

/-- app/api/auth.py login (form-encoded): looks the user up by the username
form field interpreted as email, verifies the password, and issues a token
embedding sub and role claims. One shared 401 detail covers both the
unknown-user case and the failed-verification case. -/
def login (db : DB) (username password : String) (now default_expire_minutes : Int) :
    Except HError Token :=
  match find_user_by_email db username with
  | none => Except.error (HError.unauthorized "Incorrect username or password")
  | some user =>
    if verify_password password user.hashed_password then
      Except.ok
        { access_token :=
            create_access_token (toString user.id) user.role.value none now default_expire_minutes,
          token_type := "bearer",
          user_id := user.id,
          role := user.role }
    else Except.error (HError.unauthorized "Incorrect username or password")

/-- app/api/auth.py login_json: same lookup, verification and token issuance
as the form login, with a JSON body and a different 401 detail string. -/
def login_json (db : DB) (email password : String) (now default_expire_minutes : Int) :
    Except HError Token :=
  match find_user_by_email db email with
  | none => Except.error (HError.unauthorized "Incorrect email or password")
  | some user =>
    if verify_password password user.hashed_password then
      Except.ok
        { access_token :=
            create_access_token (toString user.id) user.role.value none now default_expire_minutes,
          token_type := "bearer",
          user_id := user.id,
          role := user.role }
    else Except.error (HError.unauthorized "Incorrect email or password")

/-- app/api/classrooms.py enroll_student handler body (the TEACHER role gate
runs in the route dependency before it). Returns the post-state of the store;
a 204 response carries no body. -/
def enroll_student (db : DB) (classroom_id : Nat) (payload_student_id : Nat)
    (current_teacher : User) : Except HError DB :=
  match getClassroom db classroom_id with
  | none => Except.error (HError.notFound "Classroom not found")
  | some classroom =>
    if classroom.teacher_id ≠ current_teacher.id then
      Except.error (HError.notFound "Classroom not found")
    else
      match getUser db payload_student_id with
      | none => Except.error (HError.badRequest "Invalid student_id")
      | some student =>
        if student.role ≠ UserRole.STUDENT then
          Except.error (HError.badRequest "Invalid student_id")
        else
          match getEnrollment db classroom_id payload_student_id with
          | some _ => Except.ok db
          | none =>
            Except.ok
              { db with
                enrollments :=
                  db.enrollments ++
                    [{ classroom_id := classroom_id, student_id := payload_student_id }] }

/-- app/api/assignments.py _ensure_lesson_owned_by_teacher: 404 when the
lesson is missing, 403 when its classroom is missing or owned by another
teacher. -/
def ensure_lesson_owned_by_teacher (db : DB) (lesson_id teacher_id : Nat) :
    Except HError Lesson :=
  match getLesson db lesson_id with
  | none => Except.error (HError.notFound "Lesson not found")
  | some lesson =>
    match getClassroom db lesson.classroom_id with
    | none =>
      Except.error (HError.forbidden "Not authorized to manage assignments for this lesson")
    | some classroom =>
      if classroom.teacher_id ≠ teacher_id then
        Except.error (HError.forbidden "Not authorized to manage assignments for this lesson")
      else Except.ok lesson

/-- app/api/assignments.py get_assignment handler body (the TEACHER role gate
runs in the route dependency before it): 404 when the assignment is missing,
then the shared lesson-ownership check. -/
def get_assignment (db : DB) (assignment_id : Nat) (current_teacher : User) :
    Except HError Assignment :=
  match getAssignment db assignment_id with
  | none => Except.error (HError.notFound "Assignment not found")
  | some assignment =>
    match ensure_lesson_owned_by_teacher db assignment.lesson_id current_teacher.id with
    | Except.error e => Except.error e
    | Except.ok _ => Except.ok assignment

/-- app/api/submissions.py list_submissions_for_assignment handler body:
404 when the assignment is missing; a TEACHER must own the classroom reached
through the lesson (404 when the lesson is missing, 403 when the classroom is
missing or not owned) and then sees every submission of the assignment; any
other caller sees only the rows whose student_id is their own id, with no
enrollment check. -/
def list_submissions_for_assignment (db : DB) (assignment_id : Nat) (current_user : User) :
    Except HError (List Submission) :=
  match getAssignment db assignment_id with
  | none => Except.error (HError.notFound "Assignment not found")
  | some assignment =>
    if current_user.role = UserRole.TEACHER then
      match getLesson db assignment.lesson_id with
      | none => Except.error (HError.notFound "Lesson not found")
      | some lesson =>
        match getClassroom db lesson.classroom_id with
        | none =>
          Except.error
            (HError.forbidden "Not authorized to view submissions for this assignment")
        | some classroom =>
          if classroom.teacher_id ≠ current_user.id then
            Except.error
              (HError.forbidden "Not authorized to view submissions for this assignment")
          else
            Except.ok (db.submissions.filter (fun s => s.assignment_id == assignment_id))
    else
      Except.ok
        (db.submissions.filter
          (fun s => s.assignment_id == assignment_id && s.student_id == current_user.id))

/-- GradeUpdate schema from app/schemas/schemas.py: optional score and
optional feedback, with no constraint on either value. -/
structure GradeUpdate where
  score : Option Rat
  feedback : Option String
deriving DecidableEq

/-- app/api/grading.py grade_submission handler body (the TEACHER role gate
runs in the route dependency before it). 404 when the submission or its
assignment is missing. The classroom is resolved through the lesson with a
conditional expression that collapses a missing lesson and a missing
classroom into the same value, so both cases fall into the 403 branch
together with an ownership mismatch. On success the fetched row is updated
in place: score and feedback only when present in the payload, graded_at and
graded_by unconditionally, and the row is committed back to the store. -/
def grade_submission (db : DB) (submission_id : Nat) (payload : GradeUpdate)
    (current_teacher : User) (now : Int) : Except HError (DB × Submission) :=
  match getSubmission db submission_id with
  | none => Except.error (HError.notFound "Submission not found")
  | some submission =>
    match getAssignment db submission.assignment_id with
    | none => Except.error (HError.notFound "Assignment not found")
    | some assignment =>
      let classroomOpt :=
        match getLesson db assignment.lesson_id with
        | none => none
        | some lesson => getClassroom db lesson.classroom_id
      match classroomOpt with
      | none => Except.error (HError.forbidden "Not authorized to grade this submission")
      | some classroom =>
        if classroom.teacher_id ≠ current_teacher.id then
          Except.error (HError.forbidden "Not authorized to grade this submission")
        else
          let graded : Submission :=
            { submission with
              score := match payload.score with
                       | some s => some s
                       | none => submission.score,
              feedback := match payload.feedback with
                          | some f => some f
                          | none => submission.feedback,
              graded_at := some now,
              graded_by := some current_teacher.id }
          Except.ok
            ({ db with
               submissions :=
                 db.submissions.map (fun s => if s.id == submission_id then graded else s) },
             graded)

/-- app/api/grading.py update_grade: delegates entirely to grade_submission. -/
def update_grade (db : DB) (submission_id : Nat) (payload : GradeUpdate)
    (current_teacher : User) (now : Int) : Except HError (DB × Submission) :=
  grade_submission db submission_id payload current_teacher now

/-- Decidable equality of handler results, for concrete evaluation. -/
instance {ε α : Type} [DecidableEq ε] [DecidableEq α] : DecidableEq (Except ε α) :=
  fun a b =>
    match a, b with
    | Except.ok x, Except.ok y =>
      match decEq x y with
      | isTrue h => isTrue (by rw [h])
      | isFalse h => isFalse (fun hh => by cases hh; exact h rfl)
    | Except.error x, Except.error y =>
      match decEq x y with
      | isTrue h => isTrue (by rw [h])
      | isFalse h => isFalse (fun hh => by cases hh; exact h rfl)
    | Except.ok _, Except.error _ => isFalse (fun hh => by cases hh)
    | Except.error _, Except.ok _ => isFalse (fun hh => by cases hh)

/-- Concrete teacher fixture, owner of the sample classroom. -/
def exTeacher : User :=
  { id := 10, email := "teacher.a@example.com", full_name := "Teacher A",
    role := UserRole.TEACHER, hashed_password := "" }

/-- Concrete second teacher fixture, owner of nothing. -/
def exTeacher2 : User :=
  { id := 11, email := "teacher.b@example.com", full_name := "Teacher B",
    role := UserRole.TEACHER, hashed_password := "" }

/-- Concrete first student fixture. -/
def exStudent1 : User :=
  { id := 20, email := "s1@example.com", full_name := "Student One",
    role := UserRole.STUDENT, hashed_password := "" }

/-- Concrete second student fixture. -/
def exStudent2 : User :=
  { id := 21, email := "s2@example.com", full_name := "Student Two",
    role := UserRole.STUDENT, hashed_password := "" }

/-- Concrete classroom fixture owned by the first teacher. -/
def exClassroom : Classroom :=
  { id := 1, name := "Algebra", description := none, teacher_id := 10 }

/-- Concrete lesson fixture inside the sample classroom. -/
def exLesson : Lesson :=
  { id := 1, classroom_id := 1, title := "Week 1", description := none, scheduled_at := none }

/-- Concrete assignment fixture inside the sample lesson, max score 100. -/
def exAssignment : Assignment :=
  { id := 1, lesson_id := 1, title := "Homework 1", description := none, due_at := none,
    max_score := 100, is_published := true }

/-- Concrete submission of the first student, ungraded. -/
def exSubmission1 : Submission :=
  { id := 1, assignment_id := 1, student_id := 20, submitted_at := 0, content := none,
    file_path := none, score := none, feedback := none, graded_at := none, graded_by := none }

/-- Concrete submission of the second student, with a previously stored score. -/
def exSubmission2 : Submission :=
  { id := 2, assignment_id := 1, student_id := 21, submitted_at := 0, content := some "text",
    file_path := none, score := some 50, feedback := none, graded_at := none, graded_by := none }

/-- Concrete store with both teachers, both students, the ownership chain
classroom, lesson, assignment, one enrollment and two submissions. -/
def exDB : DB :=
  { users := [exTeacher, exTeacher2, exStudent1, exStudent2],
    classrooms := [exClassroom],
    enrollments := [{ classroom_id := 1, student_id := 20 }],
    lessons := [exLesson],
    assignments := [exAssignment],
    submissions := [exSubmission1, exSubmission2] }

/-- Concrete store holding a submission and its assignment but no lesson row
for the lesson id the assignment references. -/
def exDBNoLesson : DB :=
  { users := [exTeacher],
    classrooms := [exClassroom],
    enrollments := [],
    lessons := [],
    assignments := [exAssignment],
    submissions := [exSubmission1] }

/-- Concrete store with no rows at all. -/
def exEmptyDB : DB :=
  { users := [], classrooms := [], enrollments := [], lessons := [],
    assignments := [], submissions := [] }

/-- Password of 73 ASCII characters: accepted by the 8 to 128 character
registration validation, UTF-8 byte length 73, above the 72-byte pre-hash
threshold. -/
def longPw : String := String.mk (List.replicate 73 'a')

/-- C9 counterexample: the claim says a present but unrecognized value yields
the hardcoded default, so with default true the result should be true; the
code returns the membership test itself, which is false for the value nope. -/
theorem c9_unrecognized_value_counterexample :
    get_bool (some "nope") true = false := by decide

/-- C9 amended: a present value whose stripped lowercased form is one of 1,
true, yes, y, on parses as true; an absent variable yields the default; any
other present value yields false regardless of the default. -/
theorem c9_bool_parsing_amended :
    (∀ (r : String) (d : Bool),
       ["1", "true", "yes", "y", "on"].contains (py_lower (py_strip r)) = true →
       get_bool (some r) d = true)
    ∧ (∀ d : Bool, get_bool none d = d)
    ∧ (∀ (r : String) (d : Bool),
       ["1", "true", "yes", "y", "on"].contains (py_lower (py_strip r)) = false →
       get_bool (some r) d = false) := by
  refine ⟨?_, ?_, ?_⟩
  · intro r d h
    simp only [get_bool]
    exact h
  · intro d
    rfl
  · intro r d h
    simp only [get_bool]
    exact h

/-- C9 witness: the amended theorem applied to the recognized value TRUE with
surrounding whitespace and default false, and to the unrecognized value nope
with default true. -/
theorem c9_bool_parsing_amended_witness :
    get_bool (some " TRUE ") false = true ∧ get_bool (some "nope") true = false :=
  ⟨c9_bool_parsing_amended.1 " TRUE " false (by decide),
   c9_bool_parsing_amended.2.2 "nope" true (by decide)⟩

/-- C6 counterexample: a token created with an explicit expiry override of 0
does not get exp equal to creation time plus 0; the falsy override falls back
to the configured default of 60 minutes, and decoding at creation time
succeeds instead of failing. -/
theorem c6_zero_override_counterexample :
    (create_access_token "1" "TEACHER" (some 0) 100 60).exp ≠ 100 + 60 * 0 ∧
    decode_access_token (create_access_token "1" "TEACHER" (some 0) 100 60) 100 =
      Except.ok (create_access_token "1" "TEACHER" (some 0) 100 60) := by
  constructor
  · decide
  · decide

/-- C6 amended: for a strictly negative explicit override the exp claim is
creation time plus the override and decoding fails as expired at any time not
before creation; for an explicit override of 0 the code falls back to the
configured default, so exp is creation time plus the default. -/
theorem c6_expiry_override_amended :
    (∀ (sub role : String) (m now t d : Int), m < 0 → now ≤ t →
       (create_access_token sub role (some m) now d).exp = now + 60 * m ∧
       decode_access_token (create_access_token sub role (some m) now d) t =
         Except.error "Signature has expired")
    ∧ (∀ (sub role : String) (now d : Int),
       (create_access_token sub role (some 0) now d).exp = now + 60 * d) := by
  constructor
  · intro sub role m now t d hm ht
    have hne : m ≠ 0 := by omega
    constructor
    · simp [create_access_token, hne]
    · have hlt : now + 60 * m < t := by omega
      simp [decode_access_token, create_access_token, hne, hlt]
  · intro sub role now d
    simp [create_access_token]

/-- C6 witness: the amended theorem applied to an override of minus one
minute at creation time 0 with default 60. -/
theorem c6_expiry_override_amended_witness :
    (create_access_token "5" "STUDENT" (some (-1)) 0 60).exp = 0 + 60 * (-1) ∧
    decode_access_token (create_access_token "5" "STUDENT" (some (-1)) 0 60) 0 =
      Except.error "Signature has expired" :=
  c6_expiry_override_amended.1 "5" "STUDENT" (-1) 0 0 60 (by decide) (by decide)

/-- C7 counterexample: the two login variants do not have identical behavior
for every input; on the same failing credentials the form login answers with
the username wording and the JSON login with the email wording. -/
theorem c7_login_variants_counterexample :
    login exEmptyDB "a@b.example" "password123" 0 60 ≠
    login_json exEmptyDB "a@b.example" "password123" 0 60 := by
  decide

/-- C7 amended: for every input the two login variants agree on the success
condition and on success return the same token payload; on failure both
return a single shared 401 message that does not reveal whether the user or
the password failed, but the form variant says Incorrect username or password
while the JSON variant says Incorrect email or password. -/
theorem c7_login_variants_amended :
    ∀ (db : DB) (email password : String) (now d : Int),
      (∃ tok, login db email password now d = Except.ok tok ∧
              login_json db email password now d = Except.ok tok)
      ∨ (login db email password now d =
           Except.error (HError.unauthorized "Incorrect username or password") ∧
         login_json db email password now d =
           Except.error (HError.unauthorized "Incorrect email or password")) := by
  intro db email password now d
  cases hf : find_user_by_email db email with
  | none =>
    right
    constructor
    · simp [login, hf]
    · simp [login_json, hf]
  | some user =>
    cases hv : verify_password password user.hashed_password with
    | false =>
      right
      constructor
      · simp [login, hf, hv]
      · simp [login_json, hf, hv]
    | true =>
      left
      refine ⟨{ access_token :=
                  create_access_token (toString user.id) user.role.value none now d,
                token_type := "bearer", user_id := user.id, role := user.role }, ?_, ?_⟩
      · simp [login, hf, hv]
      · simp [login_json, hf, hv]

/-- C3: for get-assignment called by an authenticated TEACHER, a missing
assignment yields NotFound; an existing assignment whose lesson exists but
whose classroom is missing or owned by another teacher yields Forbidden; an
existing assignment whose lesson is missing yields NotFound. -/
theorem c3_get_assignment_error_paths (db : DB) (aid : Nat) (t : User)
    (hrole : t.role = UserRole.TEACHER) :
    (getAssignment db aid = none →
       get_assignment db aid t = Except.error (HError.notFound "Assignment not found"))
    ∧ (∀ a, getAssignment db aid = some a → getLesson db a.lesson_id = none →
       get_assignment db aid t = Except.error (HError.notFound "Lesson not found"))
    ∧ (∀ a l, getAssignment db aid = some a → getLesson db a.lesson_id = some l →
       getClassroom db l.classroom_id = none →
       get_assignment db aid t =
         Except.error (HError.forbidden "Not authorized to manage assignments for this lesson"))
    ∧ (∀ a l c, getAssignment db aid = some a → getLesson db a.lesson_id = some l →
       getClassroom db l.classroom_id = some c → c.teacher_id ≠ t.id →
       get_assignment db aid t =
         Except.error (HError.forbidden "Not authorized to manage assignments for this lesson")) := by
  refine ⟨?_, ?_, ?_, ?_⟩
  · intro h
    simp [get_assignment, h]
  · intro a ha hl
    simp [get_assignment, ha, ensure_lesson_owned_by_teacher, hl]
  · intro a l ha hl hc
    simp [get_assignment, ha, ensure_lesson_owned_by_teacher, hl, hc]
  · intro a l c ha hl hc hne
    simp [get_assignment, ha, ensure_lesson_owned_by_teacher, hl, hc, hne]

/-- C3 witness: in the concrete store the sample assignment exists under a
lesson and classroom owned by the first teacher, so the non-owning second
teacher gets Forbidden. -/
theorem c3_get_assignment_error_paths_witness :
    get_assignment exDB 1 exTeacher2 =
      Except.error (HError.forbidden "Not authorized to manage assignments for this lesson") :=
  (c3_get_assignment_error_paths exDB 1 exTeacher2 (by decide)).2.2.2 exAssignment exLesson
    exClassroom (by decide) (by decide) (by decide) (by decide)

/-- C2: for list-submissions on an existing assignment, a STUDENT caller gets
exactly the rows of the assignment whose student id is their own, with no
enrollment condition anywhere; the teacher owning the classroom reached from
the lesson gets every row of the assignment; a TEACHER gets NotFound when the
lesson is missing and Forbidden when the classroom is missing or owned by
someone else. -/
theorem c2_list_submissions_visibility (db : DB) (aid : Nat) (u : User) (a : Assignment)
    (ha : getAssignment db aid = some a) :
    (u.role = UserRole.STUDENT →
       list_submissions_for_assignment db aid u =
         Except.ok (db.submissions.filter
           (fun s => s.assignment_id == aid && s.student_id == u.id)) ∧
       (∀ s ∈ db.submissions.filter (fun s => s.assignment_id == aid && s.student_id == u.id),
          s.student_id = u.id ∧ s.assignment_id = aid) ∧
       (∀ s ∈ db.submissions, s.assignment_id = aid → s.student_id = u.id →
          s ∈ db.submissions.filter (fun s => s.assignment_id == aid && s.student_id == u.id)))
    ∧ (∀ l c, u.role = UserRole.TEACHER →
       getLesson db a.lesson_id = some l →
       getClassroom db l.classroom_id = some c → c.teacher_id = u.id →
       ∃ res, list_submissions_for_assignment db aid u = Except.ok res ∧
         (∀ s, s ∈ res ↔ s ∈ db.submissions ∧ s.assignment_id = aid))
    ∧ (u.role = UserRole.TEACHER → getLesson db a.lesson_id = none →
       list_submissions_for_assignment db aid u =
         Except.error (HError.notFound "Lesson not found"))
    ∧ (∀ l, u.role = UserRole.TEACHER → getLesson db a.lesson_id = some l →
       (getClassroom db l.classroom_id = none ∨
        (∃ c, getClassroom db l.classroom_id = some c ∧ c.teacher_id ≠ u.id)) →
       list_submissions_for_assignment db aid u =
         Except.error (HError.forbidden "Not authorized to view submissions for this assignment")) := by
  refine ⟨?_, ?_, ?_, ?_⟩
  · intro hrole
    have hnt : ¬(u.role = UserRole.TEACHER) := by
      rw [hrole]
      intro hcontra
      cases hcontra
    refine ⟨by simp [list_submissions_for_assignment, ha, hnt], ?_, ?_⟩
    · intro s hs
      rw [List.mem_filter] at hs
      have hp := hs.2
      rw [Bool.and_eq_true, beq_iff_eq, beq_iff_eq] at hp
      exact ⟨hp.2, hp.1⟩
    · intro s hs h1 h2
      rw [List.mem_filter, Bool.and_eq_true, beq_iff_eq, beq_iff_eq]
      exact ⟨hs, h1, h2⟩
  · intro l c hrole hl hc howner
    refine ⟨db.submissions.filter (fun s => s.assignment_id == aid), ?_, ?_⟩
    · simp [list_submissions_for_assignment, ha, hrole, hl, hc, howner]
    · intro s
      rw [List.mem_filter, beq_iff_eq]
  · intro hrole hl
    simp [list_submissions_for_assignment, ha, hrole, hl]
  · intro l hrole hl hdisj
    rcases hdisj with hc | ⟨c, hc, hne⟩
    · simp [list_submissions_for_assignment, ha, hrole, hl, hc]
    · simp [list_submissions_for_assignment, ha, hrole, hl, hc, hne]

/-- C2 witness: in the concrete store the first student listing the sample
assignment gets exactly the self-scoped filtered rows. -/
theorem c2_list_submissions_visibility_witness :
    list_submissions_for_assignment exDB 1 exStudent1 =
      Except.ok (exDB.submissions.filter
        (fun s => s.assignment_id == 1 && s.student_id == exStudent1.id)) :=
  ((c2_list_submissions_visibility exDB 1 exStudent1 exAssignment (by decide)).1 (by decide)).1

/-- C4: on an authorized grading call on an existing submission the stored
row becomes a copy of the old row in which score changes exactly when the
request carries a score, feedback changes exactly when the request carries
feedback, graded_at and graded_by are always set to the call time and the
calling teacher id, and every other field is unchanged. -/
theorem c4_grading_frame (db : DB) (sid : Nat) (payload : GradeUpdate) (t : User) (now : Int)
    (old : Submission) (a : Assignment) (l : Lesson) (c : Classroom)
    (hs : getSubmission db sid = some old)
    (ha : getAssignment db old.assignment_id = some a)
    (hl : getLesson db a.lesson_id = some l)
    (hc : getClassroom db l.classroom_id = some c)
    (ht : c.teacher_id = t.id) :
    ∃ g, grade_submission db sid payload t now =
        Except.ok
          ({ db with submissions := db.submissions.map (fun s => if s.id == sid then g else s) },
           g) ∧
      g.score = (match payload.score with | some s => some s | none => old.score) ∧
      g.feedback = (match payload.feedback with | some f => some f | none => old.feedback) ∧
      g.graded_at = some now ∧
      g.graded_by = some t.id ∧
      g.id = old.id ∧ g.assignment_id = old.assignment_id ∧ g.student_id = old.student_id ∧
      g.submitted_at = old.submitted_at ∧ g.content = old.content ∧
      g.file_path = old.file_path := by
  refine ⟨{ old with
            score := match payload.score with | some s => some s | none => old.score,
            feedback := match payload.feedback with | some f => some f | none => old.feedback,
            graded_at := some now,
            graded_by := some t.id }, ?_,
          rfl, rfl, rfl, rfl, rfl, rfl, rfl, rfl, rfl, rfl⟩
  simp [grade_submission, hs, ha, hl, hc, ht]

/-- C4 witness: grading the second sample submission, which already has score
50, with feedback only, leaves the stored score at 50 while refreshing
graded_at and graded_by. -/
theorem c4_grading_frame_witness :
    ∃ g, grade_submission exDB 2 { score := none, feedback := some "good" } exTeacher 99 =
        Except.ok
          ({ exDB with
             submissions := exDB.submissions.map (fun s => if s.id == 2 then g else s) }, g) ∧
      g.score = (match (none : Option Rat) with
                 | some s => some s
                 | none => exSubmission2.score) ∧
      g.feedback = (match (some "good" : Option String) with
                    | some f => some f
                    | none => exSubmission2.feedback) ∧
      g.graded_at = some 99 ∧
      g.graded_by = some exTeacher.id ∧
      g.id = exSubmission2.id ∧ g.assignment_id = exSubmission2.assignment_id ∧
      g.student_id = exSubmission2.student_id ∧
      g.submitted_at = exSubmission2.submitted_at ∧ g.content = exSubmission2.content ∧
      g.file_path = exSubmission2.file_path :=
  c4_grading_frame exDB 2 { score := none, feedback := some "good" } exTeacher 99
    exSubmission2 exAssignment exLesson exClassroom
    (by decide) (by decide) (by decide) (by decide) (by decide)

/-- C10: grading performs no validation of the score value; for every
rational score, negative or above the max score of the assignment included,
an authorized grading call succeeds and the stored row carries exactly that
score. -/
theorem c10_no_score_validation (db : DB) (sid : Nat) (fb : Option String) (t : User)
    (now : Int) (old : Submission) (a : Assignment) (l : Lesson) (c : Classroom)
    (hs : getSubmission db sid = some old)
    (ha : getAssignment db old.assignment_id = some a)
    (hl : getLesson db a.lesson_id = some l)
    (hc : getClassroom db l.classroom_id = some c)
    (ht : c.teacher_id = t.id) :
    ∀ s : Rat, ∃ g, grade_submission db sid { score := some s, feedback := fb } t now =
        Except.ok
          ({ db with submissions := db.submissions.map (fun x => if x.id == sid then g else x) },
           g) ∧
      g.score = some s := by
  intro s
  refine ⟨{ old with
            score := some s,
            feedback := match fb with | some f => some f | none => old.feedback,
            graded_at := some now,
            graded_by := some t.id }, ?_, rfl⟩
  simp [grade_submission, hs, ha, hl, hc, ht]

/-- C10 witness: the theorem applied once with score 1000, strictly above the
max score 100 of the sample assignment, and once with the negative score
minus 5; both succeed and store exactly the given value. -/
theorem c10_no_score_validation_witness :
    (∃ g, grade_submission exDB 1 { score := some 1000, feedback := none } exTeacher 0 =
        Except.ok
          ({ exDB with
             submissions := exDB.submissions.map (fun x => if x.id == 1 then g else x) }, g) ∧
      g.score = some 1000) ∧
    (∃ g, grade_submission exDB 1 { score := some (-5), feedback := none } exTeacher 0 =
        Except.ok
          ({ exDB with
             submissions := exDB.submissions.map (fun x => if x.id == 1 then g else x) }, g) ∧
      g.score = some (-5)) :=
  ⟨c10_no_score_validation exDB 1 none exTeacher 0 exSubmission1 exAssignment exLesson
      exClassroom (by decide) (by decide) (by decide) (by decide) (by decide) 1000,
   c10_no_score_validation exDB 1 none exTeacher 0 exSubmission1 exAssignment exLesson
      exClassroom (by decide) (by decide) (by decide) (by decide) (by decide) (-5)⟩

/-- C5 counterexample: in a store where the submission and its assignment
exist but the lesson row is missing, grading answers Forbidden, not the
NotFound that the claim requires for a missing lesson. -/
theorem c5_missing_lesson_counterexample :
    grade_submission exDBNoLesson 1 { score := none, feedback := none } exTeacher 0 =
      Except.error (HError.forbidden "Not authorized to grade this submission") ∧
    resultIsNotFound
      (grade_submission exDBNoLesson 1 { score := none, feedback := none } exTeacher 0) =
      false := by
  constructor
  · rfl
  · rfl

/-- C5 amended: grading fails with NotFound when the submission or its
assignment does not exist, and with Forbidden when the lesson is missing,
the classroom is missing, or the classroom is not owned by the calling
teacher; update_grade delegates to grade_submission and is identical on
every input. -/
theorem c5_grading_error_paths_amended (db : DB) (sid : Nat) (p : GradeUpdate) (t : User)
    (now : Int) :
    (update_grade db sid p t now = grade_submission db sid p t now)
    ∧ (getSubmission db sid = none →
       grade_submission db sid p t now = Except.error (HError.notFound "Submission not found"))
    ∧ (∀ sub, getSubmission db sid = some sub → getAssignment db sub.assignment_id = none →
       grade_submission db sid p t now = Except.error (HError.notFound "Assignment not found"))
    ∧ (∀ sub a, getSubmission db sid = some sub →
       getAssignment db sub.assignment_id = some a → getLesson db a.lesson_id = none →
       grade_submission db sid p t now =
         Except.error (HError.forbidden "Not authorized to grade this submission"))
    ∧ (∀ sub a l, getSubmission db sid = some sub →
       getAssignment db sub.assignment_id = some a → getLesson db a.lesson_id = some l →
       getClassroom db l.classroom_id = none →
       grade_submission db sid p t now =
         Except.error (HError.forbidden "Not authorized to grade this submission"))
    ∧ (∀ sub a l c, getSubmission db sid = some sub →
       getAssignment db sub.assignment_id = some a → getLesson db a.lesson_id = some l →
       getClassroom db l.classroom_id = some c → c.teacher_id ≠ t.id →
       grade_submission db sid p t now =
         Except.error (HError.forbidden "Not authorized to grade this submission")) := by
  refine ⟨rfl, ?_, ?_, ?_, ?_, ?_⟩
  · intro h
    simp [grade_submission, h]
  · intro sub hs hna
    simp [grade_submission, hs, hna]
  · intro sub a hs ha hl
    simp [grade_submission, hs, ha, hl]
  · intro sub a l hs ha hl hc
    simp [grade_submission, hs, ha, hl, hc]
  · intro sub a l c hs ha hl hc hne
    simp [grade_submission, hs, ha, hl, hc, hne]

/-- C5 witness: the amended theorem applied to the store without the lesson
row, giving Forbidden for the missing lesson. -/
theorem c5_grading_error_paths_amended_witness :
    grade_submission exDBNoLesson 1 { score := none, feedback := none } exTeacher 0 =
      Except.error (HError.forbidden "Not authorized to grade this submission") :=
  (c5_grading_error_paths_amended exDBNoLesson 1 { score := none, feedback := none }
      exTeacher 0).2.2.2.1 exSubmission1 exAssignment (by decide) (by decide) (by decide)

/-- C8: enrollment is idempotent. For a classroom owned by the calling
teacher and an existing STUDENT user, and under the composite primary key
invariant that the pair occurs at most once, enrolling twice in sequence
succeeds both times, leaves exactly one enrollment row for the pair, and the
second call returns the state of the first call unchanged. -/
theorem c8_enroll_idempotent (db : DB) (cid sid : Nat) (t : User) (c : Classroom) (st : User)
    (hc : getClassroom db cid = some c) (ht : c.teacher_id = t.id)
    (hst : getUser db sid = some st) (hrole : st.role = UserRole.STUDENT)
    (hkey : db.enrollments.countP (fun e => e.classroom_id == cid && e.student_id == sid) ≤ 1) :
    ∃ db1, enroll_student db cid sid t = Except.ok db1 ∧
      enroll_student db1 cid sid t = Except.ok db1 ∧
      db1.enrollments.countP (fun e => e.classroom_id == cid && e.student_id == sid) = 1 := by
  cases he : getEnrollment db cid sid with
  | some e =>
    refine ⟨db, ?_, ?_, ?_⟩
    · simp [enroll_student, hc, ht, hst, hrole, he]
    · simp [enroll_student, hc, ht, hst, hrole, he]
    · have he' : db.enrollments.find?
          (fun e => e.classroom_id == cid && e.student_id == sid) = some e := he
      have hp := List.find?_some he'
      have hmem := List.mem_of_find?_eq_some he'
      have hpos : 0 < db.enrollments.countP
          (fun e => e.classroom_id == cid && e.student_id == sid) :=
        List.countP_pos_iff.mpr ⟨e, hmem, hp⟩
      omega
  | none =>
    refine ⟨{ db with enrollments :=
                db.enrollments ++ [({ classroom_id := cid, student_id := sid } : ClassroomEnrollment)] }, ?_, ?_, ?_⟩
    · simp [enroll_student, hc, ht, hst, hrole, he]
    · have hc1 : getClassroom
          { db with enrollments :=
              db.enrollments ++ [({ classroom_id := cid, student_id := sid } : ClassroomEnrollment)] } cid = some c := hc
      have hst1 : getUser
          { db with enrollments :=
              db.enrollments ++ [({ classroom_id := cid, student_id := sid } : ClassroomEnrollment)] } sid =
          some st := hst
      have he0 : db.enrollments.find?
          (fun e => e.classroom_id == cid && e.student_id == sid) = none := he
      have he1 : getEnrollment
          { db with enrollments :=
              db.enrollments ++ [({ classroom_id := cid, student_id := sid } : ClassroomEnrollment)] } cid sid =
          some ({ classroom_id := cid, student_id := sid } : ClassroomEnrollment) := by
        show (db.enrollments ++ [({ classroom_id := cid, student_id := sid } : ClassroomEnrollment)]).find?
          (fun e => e.classroom_id == cid && e.student_id == sid) =
          some { classroom_id := cid, student_id := sid }
        rw [List.find?_append, he0]
        simp
      simp [enroll_student, hc1, ht, hst1, hrole, he1]
    · have he0 : db.enrollments.find?
          (fun e => e.classroom_id == cid && e.student_id == sid) = none := he
      have hz : db.enrollments.countP
          (fun e => e.classroom_id == cid && e.student_id == sid) = 0 := by
        rw [List.countP_eq_zero]
        intro x hx
        exact List.find?_eq_none.mp he0 x hx
      show (db.enrollments ++ [({ classroom_id := cid, student_id := sid } : ClassroomEnrollment)]).countP
          (fun e => e.classroom_id == cid && e.student_id == sid) = 1
      rw [List.countP_append, hz]
      simp

/-- C8 witness: enrolling the second student, not yet enrolled, into the
sample classroom twice. -/
theorem c8_enroll_idempotent_witness :
    ∃ db1, enroll_student exDB 1 21 exTeacher = Except.ok db1 ∧
      enroll_student db1 1 21 exTeacher = Except.ok db1 ∧
      db1.enrollments.countP (fun e => e.classroom_id == 1 && e.student_id == 21) = 1 :=
  c8_enroll_idempotent exDB 1 21 exTeacher exClassroom exStudent2
    (by decide) (by decide) (by decide) (by decide) (by decide)

set_option maxRecDepth 100000 in
/-- C1: evaluation of the code at a failing input. The 73-character password
passes the 8 to 128 character registration validation and its UTF-8 byte
length exceeds 72, so get_password_hash pre-hashes it with SHA-256 before the
passlib step, while verify_password hands the raw password to the passlib
verify; the round trip therefore fails, so login after registration is
impossible for this password. A short password round-trips correctly, showing
the failure is specific to the missing pre-hash in verification. -/
theorem c1_long_password_roundtrip_code_bug :
    (8 ≤ longPw.length ∧ longPw.length ≤ 128) ∧
    72 < (utf8Bytes longPw).length ∧
    verify_password longPw (get_password_hash longPw) = false ∧
    verify_password "password1" (get_password_hash "password1") = true := by
  refine ⟨⟨?_, ?_⟩, ?_, ?_, ?_⟩
  · decide
  · decide
  · decide
  · decide
  · decide

end StudentGrading
